import Mathlib

/-!
Verification of the first-person-player repository (app.js together with its
PlayerControls class).  The per-frame movement, collision and physics resolver
(processMovement), the jump handlers, the presence lifecycle callback, the
presence-record defaulting and the seeded obstacle generator are shallowly
embedded below over exact rationals; JavaScript NaN is modelled where it
matters by an Option layer (none = NaN / undefined).
-/

/-- Movement constant SPEED = 0.08 from controls.js. -/
def SPEED : ℚ := 2 / 25

/-- Movement constant GRAVITY = 0.01 from controls.js. -/
def GRAVITY : ℚ := 1 / 100

/-- Movement constant JUMP_FORCE = 0.25 from controls.js. -/
def JUMP_FORCE : ℚ := 1 / 4

/-- A JavaScript number that may be NaN (none) or a finite rational. -/
abbrev JsNum : Type := Option ℚ

/-- A quaternion as stored by camera.quaternion.toArray(): four components,
each possibly NaN. -/
structure Quat4 where
  qx : JsNum
  qy : JsNum
  qz : JsNum
  qw : JsNum
deriving DecidableEq

/-- A camera direction vector as produced by camera.getWorldDirection, with
possibly NaN components (this is what the isNaN check at the mobile orbit
branch inspects). -/
structure JsVec3 where
  x : JsNum
  y : JsNum
  z : JsNum
deriving DecidableEq

/-- An axis-aligned collidable box from the scene: center position together
with the full bounding-box sizes that processMovement reads back from the
geometry. -/
structure Block where
  cx : ℚ
  cy : ℚ
  cz : ℚ
  w : ℚ
  h : ℚ
  d : ℚ
deriving DecidableEq

/-- The per-frame mutable state of PlayerControls that processMovement and the
event handlers read and write: the presence mirror of this client (last
broadcast record, fields possibly absent before the first broadcast), the
camera position, the vertical velocity, the canJump flag (Grounded = true)
and the input bookkeeping. -/
structure PMState where
  presenceX : Option ℚ
  presenceY : Option ℚ
  presenceZ : Option ℚ
  presenceQuat : Option Quat4
  camX : ℚ
  camY : ℚ
  camZ : ℚ
  velY : ℚ
  canJump : Bool
  keysPressed : List String
  jumpButtonPressed : Bool
deriving DecidableEq

/-- The record passed to room.party.updatePresence from processMovement. -/
structure UpdateRec where
  x : ℚ
  y : ℚ
  z : ℚ
  quaternion : Quat4
deriving DecidableEq

/-- JavaScript (v or d): the fallback fires when v is absent or equal to 0
(0 is falsy), as in presence.y or 0.5 in processMovement. -/
def jsOr (v : Option ℚ) (d : ℚ) : ℚ :=
  match v with
  | none => d
  | some q => if q = 0 then d else q

/-- The candidate position and velocity being mutated by the collision loop of
processMovement: newX, newY, newZ, this.velocity.y, this.canJump and the
standingOnBlock flag. -/
structure CollState where
  newX : ℚ
  newY : ℚ
  newZ : ℚ
  vel : ℚ
  canJump : Bool
  standing : Bool
deriving DecidableEq

/-- One iteration of the blockMeshes.forEach loop in processMovement: the
standing test (velocity.y below or equal 0, horizontal overlap of the
candidate with the footprint grown by the player radius 0.3, current y within
0.2 of the block top, current y at least the block center y) snaps the
candidate y to the block top plus 0.01, zeroes the vertical velocity and
re-allows jumping; otherwise the horizontal collision test reverts the x axis
to the pre-move camera x when x is the strictly farther axis from the block
center and the x movement is nonzero, else reverts the z axis when the z
movement is nonzero. -/
def blockStep (y camX camZ mx mz : ℚ) (st : CollState) (b : Block) : CollState :=
  if st.vel ≤ 0 ∧
      |st.newX - b.cx| < b.w / 2 + 3 / 10 ∧
      |st.newZ - b.cz| < b.d / 2 + 3 / 10 ∧
      |y - (b.cy + b.h / 2)| < 1 / 5 ∧
      b.cy ≤ y then
    { st with newY := b.cy + b.h / 2 + 1 / 100, vel := 0, canJump := true, standing := true }
  else if |st.newX - b.cx| < b.w / 2 + 3 / 10 ∧
      |st.newZ - b.cz| < b.d / 2 + 3 / 10 ∧
      st.newY < b.cy + b.h / 2 ∧
      b.cy - b.h / 2 < st.newY + 9 / 5 then
    if |camX - b.cx| > |camZ - b.cz| ∧ |mx| > 0 then
      { st with newX := camX }
    else if |mz| > 0 then
      { st with newZ := camZ }
    else st
  else st

/-- The full collision loop over the scene blocks. -/
def resolveBlocks (y camX camZ mx mz : ℚ) (init : CollState) (blocks : List Block) :
    CollState :=
  blocks.foldl (blockStep y camX camZ mx mz) init

/-- The collision fold of processMovement before the ground clamp: gravity is
subtracted from the vertical velocity unconditionally, the candidate position
is current position plus movement plus vertical velocity, and every scene
block is tested in order. -/
def pmResolvedPre (s : PMState) (mx mz : ℚ) (blocks : List Block) : CollState :=
  let y := jsOr s.presenceY (1 / 2)
  let vel1 := s.velY - GRAVITY
  resolveBlocks y s.camX s.camZ mx mz
    { newX := s.camX + mx, newY := y + vel1, newZ := s.camZ + mz,
      vel := vel1, canJump := s.canJump, standing := false } blocks

/-- The resolved candidate after the ground clamp of processMovement: when no
block supports the avatar and the candidate y is below or equal 0.5, the y is
clamped to 0.5, the vertical velocity zeroed and jumping re-allowed. -/
def pmResolved (s : PMState) (mx mz : ℚ) (blocks : List Block) : CollState :=
  let c := pmResolvedPre s mx mz blocks
  if c.newY ≤ 1 / 2 ∧ c.standing = false then
    { c with newY := 1 / 2, vel := 0, canJump := true }
  else c

/-- The body of processMovement after the movement vector has been computed:
resolve the frame, commit velocity and canJump, and when the committed
position differs from the stored presence on any axis, move the camera (eye
offset 1.2 above the avatar center) and send an updatePresence record carrying
the new position and the camera quaternion (which the store merges back into
the own presence mirror); otherwise send nothing. -/
def processMovementCore (s : PMState) (mx mz : ℚ) (blocks : List Block) (quat : Quat4) :
    PMState × Option UpdateRec :=
  let c := pmResolved s mx mz blocks
  let s1 := { s with velY := c.vel, canJump := c.canJump }
  if some c.newX ≠ s.presenceX ∨ some c.newY ≠ s.presenceY ∨ some c.newZ ≠ s.presenceZ then
    ({ s1 with
        camX := c.newX
        camY := c.newY + 6 / 5
        camZ := c.newZ
        presenceX := some c.newX
        presenceY := some c.newY
        presenceZ := some c.newZ
        presenceQuat := some quat },
      some { x := c.newX, y := c.newY, z := c.newZ, quaternion := quat })
  else (s1, none)

/-- processMovement including its first line: on desktop (isMobile = false)
with pointer lock not engaged the function returns before touching any
state and before sending anything. -/
def processMovement (isMobile pointerLocked : Bool) (s : PMState) (mx mz : ℚ)
    (blocks : List Block) (quat : Quat4) : PMState × Option UpdateRec :=
  if isMobile = false ∧ pointerLocked = false then (s, none)
  else processMovementCore s mx mz blocks quat

theorem blockStep_standing_mono (y cx cz mx mz : ℚ) (st : CollState) (b : Block)
    (h : st.standing = true) :
    (blockStep y cx cz mx mz st b).standing = true := by
  unfold blockStep
  split_ifs <;> simp [h]

theorem resolveBlocks_standing_mono (y cx cz mx mz : ℚ) (blocks : List Block)
    (init : CollState) (h : init.standing = true) :
    (resolveBlocks y cx cz mx mz init blocks).standing = true := by
  induction blocks generalizing init with
  | nil => simpa [resolveBlocks] using h
  | cons b bs ih =>
      simp only [resolveBlocks, List.foldl_cons]
      exact ih (blockStep y cx cz mx mz init b) (blockStep_standing_mono y cx cz mx mz init b h)

theorem blockStep_vert_preserved (y cx cz mx mz : ℚ) (st : CollState) (b : Block)
    (h : (blockStep y cx cz mx mz st b).standing = false) :
    (blockStep y cx cz mx mz st b).newY = st.newY ∧
      (blockStep y cx cz mx mz st b).vel = st.vel ∧
      (blockStep y cx cz mx mz st b).canJump = st.canJump := by
  unfold blockStep at h ⊢
  split_ifs at h ⊢ <;> simp_all

theorem resolveBlocks_vert_preserved (y cx cz mx mz : ℚ) (blocks : List Block)
    (init : CollState) (h : (resolveBlocks y cx cz mx mz init blocks).standing = false) :
    (resolveBlocks y cx cz mx mz init blocks).newY = init.newY ∧
      (resolveBlocks y cx cz mx mz init blocks).vel = init.vel ∧
      (resolveBlocks y cx cz mx mz init blocks).canJump = init.canJump := by
  induction blocks generalizing init with
  | nil => simp [resolveBlocks]
  | cons b bs ih =>
      simp only [resolveBlocks, List.foldl_cons] at h ⊢
      have hstep : (blockStep y cx cz mx mz init b).standing = false := by
        by_contra hc
        have : (blockStep y cx cz mx mz init b).standing = true := by
          cases hb : (blockStep y cx cz mx mz init b).standing
          · exact absurd hb hc
          · rfl
        have := resolveBlocks_standing_mono y cx cz mx mz bs _ this
        simp only [resolveBlocks] at this
        rw [this] at h
        exact Bool.true_eq_false.mp h
      have h1 := blockStep_vert_preserved y cx cz mx mz init b hstep
      have h2 := ih (blockStep y cx cz mx mz init b) h
      exact ⟨h2.1.trans h1.1, h2.2.1.trans h1.2.1, h2.2.2.trans h1.2.2⟩

theorem processMovementCore_commit (s : PMState) (mx mz : ℚ) (blocks : List Block)
    (quat : Quat4) :
    (processMovementCore s mx mz blocks quat).1.presenceX =
        some (pmResolved s mx mz blocks).newX ∧
      (processMovementCore s mx mz blocks quat).1.presenceY =
        some (pmResolved s mx mz blocks).newY ∧
      (processMovementCore s mx mz blocks quat).1.presenceZ =
        some (pmResolved s mx mz blocks).newZ ∧
      (processMovementCore s mx mz blocks quat).1.velY = (pmResolved s mx mz blocks).vel ∧
      (processMovementCore s mx mz blocks quat).1.canJump =
        (pmResolved s mx mz blocks).canJump := by
  simp only [processMovementCore]
  split_ifs with h
  · simp
  · push_neg at h
    simp [h.1.symm, h.2.1.symm, h.2.2.symm]

theorem pmResolved_single_standing (s : PMState) (mx mz : ℚ) (b : Block)
    (hv : s.velY ≤ 0)
    (hx : |s.camX + mx - b.cx| < b.w / 2 + 3 / 10)
    (hz : |s.camZ + mz - b.cz| < b.d / 2 + 3 / 10)
    (hy : |jsOr s.presenceY (1 / 2) - (b.cy + b.h / 2)| < 1 / 5)
    (hcy : b.cy ≤ jsOr s.presenceY (1 / 2)) :
    pmResolved s mx mz [b] =
      { newX := s.camX + mx, newY := b.cy + b.h / 2 + 1 / 100, newZ := s.camZ + mz,
        vel := 0, canJump := true, standing := true } := by
  have hv1 : s.velY - GRAVITY ≤ 0 := by
    have : (0 : ℚ) < GRAVITY := by norm_num [GRAVITY]
    linarith
  have hpre : pmResolvedPre s mx mz [b] =
      { newX := s.camX + mx, newY := b.cy + b.h / 2 + 1 / 100, newZ := s.camZ + mz,
        vel := 0, canJump := true, standing := true } := by
    simp only [pmResolvedPre, resolveBlocks, List.foldl_cons, List.foldl_nil]
    unfold blockStep
    rw [if_pos ⟨hv1, hx, hz, hy, hcy⟩]
  rw [pmResolved, hpre]
  rw [if_neg (by simp)]

example :
    (processMovementCore
      { presenceX := some 0, presenceY := some (1 / 2), presenceZ := some 0,
        presenceQuat := some ⟨some 0, some 0, some 0, some 1⟩,
        camX := 0, camY := 17 / 10, camZ := 0, velY := 0, canJump := true,
        keysPressed := [], jumpButtonPressed := false }
      0 0 [] ⟨some 0, some 0, some 0, some 1⟩).2 = none := by
  norm_num [processMovementCore, pmResolved, pmResolvedPre, resolveBlocks, blockStep, jsOr,
    GRAVITY]

example :
    (processMovementCore
      { presenceX := some 0, presenceY := some 2, presenceZ := some 0,
        presenceQuat := some ⟨some 0, some 0, some 0, some 1⟩,
        camX := 0, camY := 16 / 5, camZ := 0, velY := 0, canJump := false,
        keysPressed := [], jumpButtonPressed := false }
      0 0 [] ⟨some 0, some 0, some 0, some 1⟩).2 =
      some { x := 0, y := 199 / 100, z := 0, quaternion := ⟨some 0, some 0, some 0, some 1⟩ } := by
  norm_num [processMovementCore, pmResolved, pmResolvedPre, resolveBlocks, blockStep, jsOr,
    GRAVITY]

/-- C1: for every frame and every obstacle tested by that frame, if the
vertical velocity entering the frame is at most 0, the candidate horizontal
position overlaps the obstacle footprint grown by the avatar radius 0.3, the
current y is within 0.2 of the obstacle top face and at least the obstacle
center y, then processMovement commits y to the obstacle top plus the epsilon
0.01, sets the vertical velocity to exactly 0 and marks the avatar Grounded
(canJump = true, jumping allowed again). -/
theorem standing_test_grounds_avatar (s : PMState) (mx mz : ℚ) (b : Block) (quat : Quat4)
    (hv : s.velY ≤ 0)
    (hx : |s.camX + mx - b.cx| < b.w / 2 + 3 / 10)
    (hz : |s.camZ + mz - b.cz| < b.d / 2 + 3 / 10)
    (hy : |jsOr s.presenceY (1 / 2) - (b.cy + b.h / 2)| < 1 / 5)
    (hcy : b.cy ≤ jsOr s.presenceY (1 / 2)) :
    (processMovementCore s mx mz [b] quat).1.presenceY = some (b.cy + b.h / 2 + 1 / 100) ∧
      (processMovementCore s mx mz [b] quat).1.velY = 0 ∧
      (processMovementCore s mx mz [b] quat).1.canJump = true := by
  have hc := processMovementCore_commit s mx mz [b] quat
  have hr := pmResolved_single_standing s mx mz b hv hx hz hy hcy
  refine ⟨?_, ?_, ?_⟩
  · rw [hc.2.1, hr]
  · rw [hc.2.2.2.1, hr]
  · rw [hc.2.2.2.2, hr]

theorem standing_test_grounds_avatar_witness :
    (processMovementCore
        { presenceX := some 0, presenceY := some (19 / 10), presenceZ := some 0,
          presenceQuat := some ⟨some 0, some 0, some 0, some 1⟩,
          camX := 0, camY := 31 / 10, camZ := 0, velY := 0, canJump := false,
          keysPressed := [], jumpButtonPressed := false }
        0 0 [{ cx := 0, cy := 1, cz := 0, w := 2, h := 2, d := 2 }]
        ⟨some 0, some 0, some 0, some 1⟩).1.presenceY = some ((1 : ℚ) + 2 / 2 + 1 / 100) ∧
      (processMovementCore
        { presenceX := some 0, presenceY := some (19 / 10), presenceZ := some 0,
          presenceQuat := some ⟨some 0, some 0, some 0, some 1⟩,
          camX := 0, camY := 31 / 10, camZ := 0, velY := 0, canJump := false,
          keysPressed := [], jumpButtonPressed := false }
        0 0 [{ cx := 0, cy := 1, cz := 0, w := 2, h := 2, d := 2 }]
        ⟨some 0, some 0, some 0, some 1⟩).1.velY = 0 ∧
      (processMovementCore
        { presenceX := some 0, presenceY := some (19 / 10), presenceZ := some 0,
          presenceQuat := some ⟨some 0, some 0, some 0, some 1⟩,
          camX := 0, camY := 31 / 10, camZ := 0, velY := 0, canJump := false,
          keysPressed := [], jumpButtonPressed := false }
        0 0 [{ cx := 0, cy := 1, cz := 0, w := 2, h := 2, d := 2 }]
        ⟨some 0, some 0, some 0, some 1⟩).1.canJump = true :=
  standing_test_grounds_avatar _ 0 0 _ _ (by norm_num) (by norm_num) (by norm_num)
    (by norm_num [jsOr, abs_lt]) (by norm_num [jsOr])

/-- C2: for every frame in which no obstacle passes the standing test, gravity
has already been subtracted from the vertical velocity unconditionally, and if
the resulting candidate y (current y plus post-gravity velocity) is at most
0.5 then processMovement commits y to exactly 0.5 with vertical velocity
exactly 0 and the avatar Grounded; the witness below is the end-to-end
instance: starting at (0, 0.5, 0) with zero velocity and no input, one frame
yields y = 0.5, not 0.5 minus the gravity constant. -/
theorem ground_clamp_after_gravity (s : PMState) (mx mz : ℚ) (blocks : List Block)
    (quat : Quat4)
    (hstand : (pmResolvedPre s mx mz blocks).standing = false)
    (hy : jsOr s.presenceY (1 / 2) + (s.velY - GRAVITY) ≤ 1 / 2) :
    (processMovementCore s mx mz blocks quat).1.presenceY = some (1 / 2) ∧
      (processMovementCore s mx mz blocks quat).1.velY = 0 ∧
      (processMovementCore s mx mz blocks quat).1.canJump = true := by
  have hc := processMovementCore_commit s mx mz blocks quat
  have hdef : pmResolvedPre s mx mz blocks =
      resolveBlocks (jsOr s.presenceY (1 / 2)) s.camX s.camZ mx mz
        { newX := s.camX + mx, newY := jsOr s.presenceY (1 / 2) + (s.velY - GRAVITY),
          newZ := s.camZ + mz, vel := s.velY - GRAVITY, canJump := s.canJump,
          standing := false } blocks := rfl
  rw [hdef] at hstand
  have hp := resolveBlocks_vert_preserved (jsOr s.presenceY (1 / 2)) s.camX s.camZ mx mz
    blocks _ hstand
  have hyle : (pmResolvedPre s mx mz blocks).newY ≤ 1 / 2 := by
    rw [hdef, hp.1]; exact hy
  have hclamp : pmResolved s mx mz blocks =
      { pmResolvedPre s mx mz blocks with newY := 1 / 2, vel := 0, canJump := true } := by
    simp only [pmResolved]
    rw [if_pos ⟨hyle, by rw [hdef]; exact hstand⟩]
  refine ⟨?_, ?_, ?_⟩
  · rw [hc.2.1, hclamp]
  · rw [hc.2.2.2.1, hclamp]
  · rw [hc.2.2.2.2, hclamp]

theorem ground_clamp_after_gravity_witness :
    (processMovementCore
        { presenceX := some 0, presenceY := some (1 / 2), presenceZ := some 0,
          presenceQuat := some ⟨some 0, some 0, some 0, some 1⟩,
          camX := 0, camY := 17 / 10, camZ := 0, velY := 0, canJump := true,
          keysPressed := [], jumpButtonPressed := false }
        0 0 [] ⟨some 0, some 0, some 0, some 1⟩).1.presenceY = some (1 / 2) ∧
      (processMovementCore
        { presenceX := some 0, presenceY := some (1 / 2), presenceZ := some 0,
          presenceQuat := some ⟨some 0, some 0, some 0, some 1⟩,
          camX := 0, camY := 17 / 10, camZ := 0, velY := 0, canJump := true,
          keysPressed := [], jumpButtonPressed := false }
        0 0 [] ⟨some 0, some 0, some 0, some 1⟩).1.velY = 0 ∧
      (processMovementCore
        { presenceX := some 0, presenceY := some (1 / 2), presenceZ := some 0,
          presenceQuat := some ⟨some 0, some 0, some 0, some 1⟩,
          camX := 0, camY := 17 / 10, camZ := 0, velY := 0, canJump := true,
          keysPressed := [], jumpButtonPressed := false }
        0 0 [] ⟨some 0, some 0, some 0, some 1⟩).1.canJump = true :=
  ground_clamp_after_gravity _ 0 0 [] _ rfl (by norm_num [jsOr, GRAVITY])

theorem pmResolved_horiz_eq_pre (s : PMState) (mx mz : ℚ) (blocks : List Block) :
    (pmResolved s mx mz blocks).newX = (pmResolvedPre s mx mz blocks).newX ∧
      (pmResolved s mx mz blocks).newZ = (pmResolvedPre s mx mz blocks).newZ := by
  simp only [pmResolved]
  split_ifs <;> simp

/-- C3 counterexample: the claim predicts that the axis with the larger
pre-move distance from the obstacle center (here x: |3/2| > |1/2|) is the
axis reverted while the other axis movement is preserved.  At this input the
avatar moves only along z (mz = 2/25, mx = 0) grazing a wide block; the code
falls through to the z branch because the x movement is zero, and reverts the
z axis instead, so the committed z is the pre-move -1/2 and not the
claim-predicted -1/2 + 2/25. -/
theorem axis_priority_claim_counterexample :
    (processMovementCore
        { presenceX := some (3 / 2), presenceY := some (1 / 2), presenceZ := some (-(1 : ℚ) / 2),
          presenceQuat := some ⟨some 0, some 0, some 0, some 1⟩,
          camX := 3 / 2, camY := 17 / 10, camZ := -(1 : ℚ) / 2, velY := 0, canJump := true,
          keysPressed := [], jumpButtonPressed := false }
        0 (2 / 25) [{ cx := 0, cy := 1, cz := 0, w := 4, h := 2, d := 4 }]
        ⟨some 0, some 0, some 0, some 1⟩).1.presenceZ = some (-(1 : ℚ) / 2) ∧
      (processMovementCore
        { presenceX := some (3 / 2), presenceY := some (1 / 2), presenceZ := some (-(1 : ℚ) / 2),
          presenceQuat := some ⟨some 0, some 0, some 0, some 1⟩,
          camX := 3 / 2, camY := 17 / 10, camZ := -(1 : ℚ) / 2, velY := 0, canJump := true,
          keysPressed := [], jumpButtonPressed := false }
        0 (2 / 25) [{ cx := 0, cy := 1, cz := 0, w := 4, h := 2, d := 4 }]
        ⟨some 0, some 0, some 0, some 1⟩).1.presenceZ ≠ some (-(1 : ℚ) / 2 + 2 / 25) ∧
      |(3 : ℚ) / 2 - 0| > |(-(1 : ℚ) / 2) - 0| ∧ ((2 : ℚ) / 25 ≠ 0) := by
  norm_num [processMovementCore, pmResolved, pmResolvedPre, resolveBlocks, blockStep, jsOr,
    GRAVITY, abs_lt, abs_of_nonneg, abs_of_nonpos]

/-- C3 amended: when the standing test fails for the obstacle but the
candidate overlaps its grown footprint and vertical extent, processMovement
reverts at most one horizontal axis: the x axis (to the pre-move camera x)
exactly when x is the strictly farther axis from the obstacle center and the
x movement is nonzero; otherwise the z axis (to the pre-move camera z)
exactly when the z movement is nonzero; otherwise neither.  The non-reverted
axis keeps its movement. -/
theorem axis_priority_sliding (s : PMState) (mx mz : ℚ) (b : Block) (quat : Quat4)
    (hns : ¬(s.velY - GRAVITY ≤ 0 ∧
        |s.camX + mx - b.cx| < b.w / 2 + 3 / 10 ∧
        |s.camZ + mz - b.cz| < b.d / 2 + 3 / 10 ∧
        |jsOr s.presenceY (1 / 2) - (b.cy + b.h / 2)| < 1 / 5 ∧
        b.cy ≤ jsOr s.presenceY (1 / 2)))
    (hh : |s.camX + mx - b.cx| < b.w / 2 + 3 / 10 ∧
        |s.camZ + mz - b.cz| < b.d / 2 + 3 / 10 ∧
        jsOr s.presenceY (1 / 2) + (s.velY - GRAVITY) < b.cy + b.h / 2 ∧
        b.cy - b.h / 2 < jsOr s.presenceY (1 / 2) + (s.velY - GRAVITY) + 9 / 5) :
    (processMovementCore s mx mz [b] quat).1.presenceX =
        some (if |s.camX - b.cx| > |s.camZ - b.cz| ∧ |mx| > 0 then s.camX else s.camX + mx) ∧
      (processMovementCore s mx mz [b] quat).1.presenceZ =
        some (if ¬(|s.camX - b.cx| > |s.camZ - b.cz| ∧ |mx| > 0) ∧ |mz| > 0 then s.camZ
          else s.camZ + mz) := by
  have hpre : (pmResolvedPre s mx mz [b]).newX =
        (if |s.camX - b.cx| > |s.camZ - b.cz| ∧ |mx| > 0 then s.camX else s.camX + mx) ∧
      (pmResolvedPre s mx mz [b]).newZ =
        (if ¬(|s.camX - b.cx| > |s.camZ - b.cz| ∧ |mx| > 0) ∧ |mz| > 0 then s.camZ
          else s.camZ + mz) := by
    simp only [pmResolvedPre, resolveBlocks, List.foldl_cons, List.foldl_nil, blockStep]
    rw [if_neg hns, if_pos hh]
    by_cases h1 : |s.camX - b.cx| > |s.camZ - b.cz| ∧ |mx| > 0
    · rw [if_pos h1, if_pos h1]
      simp [h1]
    · rw [if_neg h1, if_neg h1]
      by_cases h2 : |mz| > 0
      · rw [if_pos h2, if_pos ⟨h1, h2⟩]
        exact ⟨rfl, rfl⟩
      · rw [if_neg h2, if_neg (by simp [h2])]
        exact ⟨rfl, rfl⟩
  have hc := processMovementCore_commit s mx mz [b] quat
  have hhp := pmResolved_horiz_eq_pre s mx mz [b]
  constructor
  · rw [hc.1, hhp.1, hpre.1]
  · rw [hc.2.2.1, hhp.2, hpre.2]

theorem axis_priority_sliding_witness :
    (processMovementCore
        { presenceX := some (11 / 5), presenceY := some (1 / 2), presenceZ := some 1,
          presenceQuat := some ⟨some 0, some 0, some 0, some 1⟩,
          camX := 11 / 5, camY := 17 / 10, camZ := 1, velY := 0, canJump := true,
          keysPressed := [], jumpButtonPressed := false }
        (-(2 : ℚ) / 25) 0 [{ cx := 0, cy := 1, cz := 0, w := 4, h := 2, d := 4 }]
        ⟨some 0, some 0, some 0, some 1⟩).1.presenceX =
      some (if |(11 : ℚ) / 5 - 0| > |(1 : ℚ) - 0| ∧ |(-(2 : ℚ) / 25)| > 0 then (11 : ℚ) / 5
        else 11 / 5 + -(2 : ℚ) / 25) ∧
      (processMovementCore
        { presenceX := some (11 / 5), presenceY := some (1 / 2), presenceZ := some 1,
          presenceQuat := some ⟨some 0, some 0, some 0, some 1⟩,
          camX := 11 / 5, camY := 17 / 10, camZ := 1, velY := 0, canJump := true,
          keysPressed := [], jumpButtonPressed := false }
        (-(2 : ℚ) / 25) 0 [{ cx := 0, cy := 1, cz := 0, w := 4, h := 2, d := 4 }]
        ⟨some 0, some 0, some 0, some 1⟩).1.presenceZ =
      some (if ¬(|(11 : ℚ) / 5 - 0| > |(1 : ℚ) - 0| ∧ |(-(2 : ℚ) / 25)| > 0) ∧ |(0 : ℚ)| > 0
        then (1 : ℚ) else 1 + 0) :=
  axis_priority_sliding _ (-(2 : ℚ) / 25) 0 _ _
    (by norm_num [jsOr, GRAVITY, abs_lt])
    (by norm_num [jsOr, GRAVITY, abs_lt])

/-- The keydown handler from setupEventListeners: the lowercased key is added
to the held-key set, and if the key is the space bar while jumping is allowed
the vertical velocity is set to JUMP_FORCE and jumping is disallowed until
grounded again. -/
def onKeyDown (s : PMState) (key : String) : PMState :=
  let s1 := { s with keysPressed :=
    if key.toLower ∈ s.keysPressed then s.keysPressed else s.keysPressed ++ [key.toLower] }
  if key = " " ∧ s.canJump = true then { s1 with velY := JUMP_FORCE, canJump := false } else s1

/-- The touchstart handler of the mobile jump button: the pressed flag is
set, then if jumping is allowed the jump impulse is applied and jumping is
disallowed. -/
def onJumpTouchStart (s : PMState) : PMState :=
  let s1 := { s with jumpButtonPressed := true }
  if s.canJump = true then { s1 with velY := JUMP_FORCE, canJump := false } else s1

/-- C4: a jump request (space keydown on desktop, or the mobile jump button)
arriving while Grounded (canJump = true) sets the vertical velocity to
exactly JUMP_FORCE and flips the avatar to Airborne (canJump = false,
jumping disallowed until grounded again); a jump request arriving while
Airborne leaves the vertical velocity, the grounded flag, the position state
and the camera unchanged. -/
theorem jump_request_impulse (s : PMState) :
    (s.canJump = true →
      (onKeyDown s " ").velY = JUMP_FORCE ∧ (onKeyDown s " ").canJump = false ∧
        (onJumpTouchStart s).velY = JUMP_FORCE ∧ (onJumpTouchStart s).canJump = false) ∧
    (s.canJump = false →
      (onKeyDown s " ").velY = s.velY ∧ (onKeyDown s " ").canJump = s.canJump ∧
        (onKeyDown s " ").presenceX = s.presenceX ∧
        (onKeyDown s " ").presenceY = s.presenceY ∧
        (onKeyDown s " ").presenceZ = s.presenceZ ∧
        (onKeyDown s " ").presenceQuat = s.presenceQuat ∧
        (onKeyDown s " ").camX = s.camX ∧ (onKeyDown s " ").camY = s.camY ∧
        (onKeyDown s " ").camZ = s.camZ ∧
        (onJumpTouchStart s).velY = s.velY ∧ (onJumpTouchStart s).canJump = s.canJump) := by
  constructor
  · intro h
    simp [onKeyDown, onJumpTouchStart, h]
  · intro h
    simp [onKeyDown, onJumpTouchStart, h]

theorem jump_request_impulse_witness :
    (onKeyDown
        { presenceX := some 0, presenceY := some (1 / 2), presenceZ := some 0,
          presenceQuat := some ⟨some 0, some 0, some 0, some 1⟩,
          camX := 0, camY := 17 / 10, camZ := 0, velY := 0, canJump := true,
          keysPressed := [], jumpButtonPressed := false } " ").velY = JUMP_FORCE ∧
      (onKeyDown
        { presenceX := some 0, presenceY := some 2, presenceZ := some 0,
          presenceQuat := some ⟨some 0, some 0, some 0, some 1⟩,
          camX := 0, camY := 16 / 5, camZ := 0, velY := 1 / 8, canJump := false,
          keysPressed := [], jumpButtonPressed := false } " ").velY = 1 / 8 :=
  ⟨((jump_request_impulse _).1 rfl).1, ((jump_request_impulse _).2 rfl).1⟩

/-- C5: the broadcast guard of processMovement: when the resolved committed
position equals the stored presence on all three axes (and the orientation is
also unchanged, so the rotation listener stays silent too), no presence
update is sent this frame; conversely whenever the committed position differs
from the stored presence on any axis, the update carrying the new position
and the current orientation is sent. -/
theorem broadcast_suppression (s : PMState) (mx mz : ℚ) (blocks : List Block) (quat : Quat4) :
    (some (pmResolved s mx mz blocks).newX = s.presenceX ∧
        some (pmResolved s mx mz blocks).newY = s.presenceY ∧
        some (pmResolved s mx mz blocks).newZ = s.presenceZ ∧
        s.presenceQuat = some quat →
      (processMovementCore s mx mz blocks quat).2 = none) ∧
    (some (pmResolved s mx mz blocks).newX ≠ s.presenceX ∨
        some (pmResolved s mx mz blocks).newY ≠ s.presenceY ∨
        some (pmResolved s mx mz blocks).newZ ≠ s.presenceZ →
      (processMovementCore s mx mz blocks quat).2 =
        some { x := (pmResolved s mx mz blocks).newX
               y := (pmResolved s mx mz blocks).newY
               z := (pmResolved s mx mz blocks).newZ
               quaternion := quat }) := by
  constructor
  · rintro ⟨h1, h2, h3, -⟩
    simp only [processMovementCore]
    rw [if_neg (by push_neg; exact ⟨h1, h2, h3⟩)]
  · intro h
    simp only [processMovementCore]
    rw [if_pos h]

theorem broadcast_suppression_witness :
    (processMovementCore
        { presenceX := some 0, presenceY := some (1 / 2), presenceZ := some 0,
          presenceQuat := some ⟨some 0, some 0, some 0, some 1⟩,
          camX := 0, camY := 17 / 10, camZ := 0, velY := 0, canJump := true,
          keysPressed := [], jumpButtonPressed := false }
        0 0 [] ⟨some 0, some 0, some 0, some 1⟩).2 = none ∧
      (processMovementCore
        { presenceX := some 0, presenceY := some 3, presenceZ := some 0,
          presenceQuat := some ⟨some 0, some 0, some 0, some 1⟩,
          camX := 0, camY := 21 / 5, camZ := 0, velY := 0, canJump := false,
          keysPressed := [], jumpButtonPressed := false }
        0 0 [] ⟨some 0, some 0, some 0, some 1⟩).2 =
        some { x := 0, y := 299 / 100, z := 0
               quaternion := ⟨some 0, some 0, some 0, some 1⟩ } :=
  ⟨(broadcast_suppression _ 0 0 [] _).1
      (by norm_num [pmResolved, pmResolvedPre, resolveBlocks, jsOr, GRAVITY]),
    ((broadcast_suppression _ 0 0 [] _).2
      (by norm_num [pmResolved, pmResolvedPre, resolveBlocks, jsOr, GRAVITY])).trans
      (by norm_num [pmResolved, pmResolvedPre, resolveBlocks, jsOr, GRAVITY])⟩

/-- C10: on desktop (isMobile = false), during a frame in which pointer lock
is not engaged, processMovement returns immediately: the entire local avatar
state (position, camera, vertical velocity, grounded flag, input bookkeeping)
is unchanged and no presence update is sent; in particular gravity is not
integrated. -/
theorem pointer_unlock_frame_noop (s : PMState) (mx mz : ℚ) (blocks : List Block)
    (quat : Quat4) :
    processMovement false false s mx mz blocks quat = (s, none) := by
  simp [processMovement]

/-- An incoming PresenceRecord as read by updatePlayerObject: every field may
be missing (none). -/
structure PresenceIn where
  x : Option ℚ
  y : Option ℚ
  z : Option ℚ
  quaternion : Option Quat4
  name : Option String
  color : Option String
deriving DecidableEq

/-- The result of spreading an incoming record over the defaults object in
updatePlayerObject: x, y, quaternion, name and color always present, z still
possibly missing because the defaults object has no z entry. -/
structure SafePresence where
  x : ℚ
  y : ℚ
  z : Option ℚ
  quaternion : Quat4
  name : String
  color : String
deriving DecidableEq

/-- The safePresence construction at the top of updatePlayerObject: the
object literal provides defaults x 0, y 0.5, color #FFFFFF, name Unknown,
quaternion [0, 0, 0, 1], and the spread of the incoming presence overrides
each default whose field is present.  There is no default for z, so z passes
through exactly as received. -/
def mkSafePresence (p : PresenceIn) : SafePresence :=
  { x := p.x.getD 0
    y := p.y.getD (1 / 2)
    z := p.z
    quaternion := p.quaternion.getD ⟨some 0, some 0, some 0, some 1⟩
    name := p.name.getD "Unknown"
    color := p.color.getD "#FFFFFF" }

/-- C7: the defensive defaulting is incomplete: z is never defaulted.  For
every incoming record the z field passes through verbatim, and on the fully
empty record the built safePresence has the defaults for x, y, quaternion,
name and color but z = none, so playerObj.position.set receives an undefined
third component and the avatar transform is not finite, contradicting the
stated policy that every missing field is replaced before use. -/
theorem presence_defaults_miss_z :
    (∀ p : PresenceIn, (mkSafePresence p).z = p.z) ∧
      (mkSafePresence ⟨none, none, none, none, none, none⟩).z = none ∧
      (mkSafePresence ⟨none, none, none, none, none, none⟩).x = 0 ∧
      (mkSafePresence ⟨none, none, none, none, none, none⟩).y = 1 / 2 ∧
      (mkSafePresence ⟨none, none, none, none, none, none⟩).quaternion =
        ⟨some 0, some 0, some 0, some 1⟩ ∧
      (mkSafePresence ⟨none, none, none, none, none, none⟩).name = "Unknown" ∧
      (mkSafePresence ⟨none, none, none, none, none, none⟩).color = "#FFFFFF" :=
  ⟨fun _ => rfl, rfl, rfl, rfl, rfl, rfl, rfl⟩

/-- The isNaN guard on the mobile orbit-target path of processMovement: if
any component of the freshly computed camera direction is NaN the direction
is reset to the default facing (0, 0, -1) before being used as the orbit
target offset; otherwise it is used unchanged. -/
def checkCameraDirection (d : JsVec3) : JsVec3 :=
  if d.x = none ∨ d.y = none ∨ d.z = none then ⟨some 0, some 0, some (-1)⟩ else d

/-- C8 counterexample: the presence broadcast performs no finiteness check on
the orientation: in a desktop frame whose camera quaternion holds a NaN
component and whose position changes (a plain gravity fall with no input and
no obstacles), processMovement sends a presence update whose quaternion
still contains the NaN component, so a non-finite orientation component is
written into the shared presence store, refuting the claim that this can
never happen. -/
theorem nan_quaternion_broadcast_counterexample :
    (processMovement false true
        { presenceX := some 0, presenceY := some 2, presenceZ := some 0,
          presenceQuat := some ⟨some 0, some 0, some 0, some 1⟩,
          camX := 0, camY := 16 / 5, camZ := 0, velY := 0, canJump := false,
          keysPressed := [], jumpButtonPressed := false }
        0 0 [] ⟨none, some 0, some 0, some 1⟩).2 =
      some { x := 0, y := 199 / 100, z := 0
             quaternion := ⟨none, some 0, some 0, some 1⟩ } ∧
      (⟨none, some 0, some 0, some 1⟩ : Quat4).qx = none := by
  constructor
  · norm_num [processMovement, processMovementCore, pmResolved, pmResolvedPre, resolveBlocks,
      jsOr, GRAVITY]
  · rfl

/-- C8 amended: the only finiteness guard in the resolver is the one on the
mobile orbit-target camera direction, and that guard does replace a direction
with any NaN component by the safe default facing (0, 0, -1); the quaternion
carried by every presence update that processMovement sends is the camera
quaternion passed through verbatim, with no finiteness check. -/
theorem direction_guard_and_quaternion_passthrough :
    (∀ d : JsVec3, (d.x = none ∨ d.y = none ∨ d.z = none) →
      checkCameraDirection d = ⟨some 0, some 0, some (-1)⟩) ∧
    (∀ (s : PMState) (mx mz : ℚ) (blocks : List Block) (quat : Quat4) (u : UpdateRec),
      (processMovementCore s mx mz blocks quat).2 = some u → u.quaternion = quat) := by
  constructor
  · intro d h
    simp [checkCameraDirection, h]
  · intro s mx mz blocks quat u h
    simp only [processMovementCore] at h
    split_ifs at h with hc
    replace h := Option.some.inj h
    rw [← h]

theorem direction_guard_and_quaternion_passthrough_witness :
    checkCameraDirection ⟨none, some 0, some 0⟩ = ⟨some 0, some 0, some (-1)⟩ ∧
      ({ x := 0, y := 499 / 100, z := 0
         quaternion := ⟨some 1, some 0, some 0, some 0⟩ } : UpdateRec).quaternion =
        ⟨some 1, some 0, some 0, some 0⟩ :=
  ⟨direction_guard_and_quaternion_passthrough.1 ⟨none, some 0, some 0⟩ (Or.inl rfl),
    direction_guard_and_quaternion_passthrough.2
      { presenceX := some 0, presenceY := some 5, presenceZ := some 0,
        presenceQuat := some ⟨some 1, some 0, some 0, some 0⟩,
        camX := 0, camY := 31 / 5, camZ := 0, velY := 0, canJump := false,
        keysPressed := [], jumpButtonPressed := false }
      0 0 [] ⟨some 1, some 0, some 0, some 0⟩
      { x := 0, y := 499 / 100, z := 0
        quaternion := ⟨some 1, some 0, some 0, some 0⟩ }
      (by norm_num [processMovementCore, pmResolved, pmResolvedPre, resolveBlocks, jsOr,
        GRAVITY])⟩

/-- The playerObjects map of app.js: a JS Map in insertion order from
connection id to the avatar entry holding the applied presence transform. -/
abbrev PlayerObjects := List (String × SafePresence)

/-- updatePlayerObject as invoked from the presence callback: when the id is
unseen a new avatar entry is appended to the map (created exactly once),
otherwise the existing entry receives the freshly applied transform. -/
def updatePlayerObject (objs : PlayerObjects) (id : String) (rec : PresenceIn) :
    PlayerObjects :=
  if id ∈ objs.map Prod.fst then
    objs.map (fun e => if e.1 = id then (id, mkSafePresence rec) else e)
  else objs ++ [(id, mkSafePresence rec)]

/-- The subscribePresence callback: first every connection id of the snapshot
other than the own id is created or updated; then every stored avatar whose
id is not the own id and has no record left in the snapshot is removed (the
removePlayerObject loop, expressed as the equivalent filter keeping exactly
the entries that loop does not delete). -/
def subscribePresenceCallback (selfId : String) (snap : List (String × PresenceIn))
    (objs : PlayerObjects) : PlayerObjects :=
  let objs1 := snap.foldl
    (fun acc kv => if kv.1 ≠ selfId then updatePlayerObject acc kv.1 kv.2 else acc) objs
  objs1.filter (fun e => decide (e.1 = selfId ∨ e.1 ∈ snap.map Prod.fst))

theorem map_update_keys (objs : PlayerObjects) (id : String) (v : SafePresence) :
    (objs.map (fun e => if e.1 = id then (id, v) else e)).map Prod.fst =
      objs.map Prod.fst := by
  induction objs with
  | nil => rfl
  | cons e es ih =>
      simp only [List.map_cons]
      by_cases h : e.1 = id
      · simp [h, ih]
      · simp [h, ih]

theorem updatePlayerObject_keys (objs : PlayerObjects) (id : String) (rec : PresenceIn) :
    (updatePlayerObject objs id rec).map Prod.fst =
      if id ∈ objs.map Prod.fst then objs.map Prod.fst else objs.map Prod.fst ++ [id] := by
  unfold updatePlayerObject
  split_ifs with h
  · exact map_update_keys objs id (mkSafePresence rec)
  · simp

theorem updatePlayerObject_keys_nodup (objs : PlayerObjects) (id : String)
    (rec : PresenceIn) (h : (objs.map Prod.fst).Nodup) :
    ((updatePlayerObject objs id rec).map Prod.fst).Nodup := by
  rw [updatePlayerObject_keys]
  split_ifs with hmem
  · exact h
  · rw [List.nodup_append]
    exact ⟨h, List.nodup_singleton id, by
      intro a ha ha'
      rw [List.mem_singleton] at ha'
      exact hmem (ha' ▸ ha)⟩

theorem updatePlayerObject_keys_mono (objs : PlayerObjects) (id k : String)
    (rec : PresenceIn) (h : k ∈ objs.map Prod.fst) :
    k ∈ (updatePlayerObject objs id rec).map Prod.fst := by
  rw [updatePlayerObject_keys]
  split_ifs with hmem
  · exact h
  · exact List.mem_append_left _ h

theorem updatePlayerObject_keys_self (objs : PlayerObjects) (id : String)
    (rec : PresenceIn) : id ∈ (updatePlayerObject objs id rec).map Prod.fst := by
  rw [updatePlayerObject_keys]
  split_ifs with hmem
  · exact hmem
  · exact List.mem_append_right _ (List.mem_singleton.2 rfl)

theorem createLoop_keys_nodup (selfId : String) (snap : List (String × PresenceIn)) :
    ∀ objs : PlayerObjects, (objs.map Prod.fst).Nodup →
      ((snap.foldl
        (fun acc kv => if kv.1 ≠ selfId then updatePlayerObject acc kv.1 kv.2 else acc)
        objs).map Prod.fst).Nodup := by
  induction snap with
  | nil => intro objs h; simpa using h
  | cons kv rest ih =>
      intro objs h
      simp only [List.foldl_cons]
      by_cases hkv : kv.1 ≠ selfId
      · rw [if_pos hkv]
        exact ih _ (updatePlayerObject_keys_nodup objs kv.1 kv.2 h)
      · rw [if_neg hkv]
        exact ih _ h

theorem createLoop_keys_mono (selfId : String) (snap : List (String × PresenceIn)) :
    ∀ (objs : PlayerObjects) (k : String), k ∈ objs.map Prod.fst →
      k ∈ (snap.foldl
        (fun acc kv => if kv.1 ≠ selfId then updatePlayerObject acc kv.1 kv.2 else acc)
        objs).map Prod.fst := by
  induction snap with
  | nil => intro objs k h; simpa using h
  | cons kv rest ih =>
      intro objs k h
      simp only [List.foldl_cons]
      by_cases hkv : kv.1 ≠ selfId
      · rw [if_pos hkv]
        exact ih _ k (updatePlayerObject_keys_mono objs kv.1 k kv.2 h)
      · rw [if_neg hkv]
        exact ih _ k h

theorem createLoop_keys_covers (selfId : String) (snap : List (String × PresenceIn)) :
    ∀ (objs : PlayerObjects) (k : String), k ≠ selfId → k ∈ snap.map Prod.fst →
      k ∈ (snap.foldl
        (fun acc kv => if kv.1 ≠ selfId then updatePlayerObject acc kv.1 kv.2 else acc)
        objs).map Prod.fst := by
  induction snap with
  | nil => intro objs k _ h; simp at h
  | cons kv rest ih =>
      intro objs k hk hmem
      simp only [List.map_cons, List.mem_cons] at hmem
      simp only [List.foldl_cons]
      rcases hmem with heq | hrest
      · subst heq
        rw [if_pos hk]
        exact createLoop_keys_mono selfId rest _ kv.1
          (updatePlayerObject_keys_self objs kv.1 kv.2)
      · by_cases hkv : kv.1 ≠ selfId
        · rw [if_pos hkv]
          exact ih _ k hk hrest
        · rw [if_neg hkv]
          exact ih _ k hk hrest

theorem filter_keep_fst (selfId : String) (keysSnap : List String) (l : PlayerObjects) :
    ((l.filter (fun e => decide (e.1 = selfId ∨ e.1 ∈ keysSnap))).map Prod.fst) =
      (l.map Prod.fst).filter (fun k => decide (k = selfId ∨ k ∈ keysSnap)) := by
  induction l with
  | nil => rfl
  | cons e es ih =>
      cases hb : decide (e.1 = selfId ∨ e.1 ∈ keysSnap) with
      | false =>
          simp only [List.filter_cons, List.map_cons, hb, Bool.false_eq_true, if_false]
          exact ih
      | true =>
          simp only [List.filter_cons, List.map_cons, hb, if_true]
          rw [ih]

/-- C6: after every presence snapshot callback, the playerObjects map holds
exactly one avatar entry per non-self connection id present in the snapshot:
the key list stays duplicate-free (so an id persisting over repeated
snapshots is never created twice), a non-self id is a key exactly when its
record is in the snapshot (created on first sighting, removed on
disappearance), and a stored self entry is never removed by the loop. -/
theorem presence_lifecycle_unique (selfId : String) (snap : List (String × PresenceIn))
    (objs : PlayerObjects) (hnd : (objs.map Prod.fst).Nodup) :
    ((subscribePresenceCallback selfId snap objs).map Prod.fst).Nodup ∧
      ∀ id : String, id ≠ selfId →
        (id ∈ (subscribePresenceCallback selfId snap objs).map Prod.fst ↔
          id ∈ snap.map Prod.fst) := by
  unfold subscribePresenceCallback
  rw [filter_keep_fst]
  constructor
  · exact List.Nodup.filter _ (createLoop_keys_nodup selfId snap objs hnd)
  · intro id hid
    constructor
    · intro h
      rcases List.mem_filter.1 h with ⟨-, hp⟩
      rcases of_decide_eq_true hp with h1 | h2
      · exact absurd h1 hid
      · exact h2
    · intro h
      refine List.mem_filter.2 ⟨createLoop_keys_covers selfId snap objs id hid h, ?_⟩
      exact decide_eq_true (Or.inr h)

theorem presence_lifecycle_unique_witness :
    ((subscribePresenceCallback "A"
        [("B", ⟨some 1, some (1 / 2), some 1, some ⟨some 0, some 0, some 0, some 1⟩,
          some "bee", some "#FF9AA2"⟩)] []).map Prod.fst).Nodup ∧
      ("B" ∈ (subscribePresenceCallback "A"
        [("B", ⟨some 1, some (1 / 2), some 1, some ⟨some 0, some 0, some 0, some 1⟩,
          some "bee", some "#FF9AA2"⟩)] []).map Prod.fst ↔
        "B" ∈ ([("B", (⟨some 1, some (1 / 2), some 1,
          some ⟨some 0, some 0, some 0, some 1⟩, some "bee", some "#FF9AA2"⟩ :
            PresenceIn))].map Prod.fst)) :=
  ⟨(presence_lifecycle_unique "A" _ [] List.nodup_nil).1,
    (presence_lifecycle_unique "A" _ [] List.nodup_nil).2 "B" (by decide)⟩

/-- The seeded generator class MathRandom of app.js: only the current seed is
stored. -/
structure MathRandom where
  seed : ℚ
deriving DecidableEq

/-- One call of MathRandom.random: take the sine of the current seed (the
sine of the host math library is passed in as a pure function), scale by
10000, keep the fractional part, and increment the seed. -/
def mathRandomNext (sinF : ℚ → ℚ) (r : MathRandom) : ℚ × MathRandom :=
  let x := sinF r.seed * 10000
  (x - (⌊x⌋ : ℚ), { seed := r.seed + 1 })

inductive ObstacleKind where
  | barrier : ObstacleKind
  | platform : ObstacleKind
deriving DecidableEq

/-- One generated obstacle: a barrier wall or a platform block with its box
dimensions and center position. -/
structure Obstacle where
  kind : ObstacleKind
  width : ℚ
  height : ℚ
  depth : ℚ
  x : ℚ
  y : ℚ
  z : ℚ
deriving DecidableEq

/-- The first loop of createBarriers: n random barriers, each drawing width,
height and depth in [1, 4], then an angle in [0, 2 pi) and a distance in
[5, 20) from the origin, placed height-centered. -/
def barrierLoop (sinF cosF : ℚ → ℚ) (piV : ℚ) : ℕ → MathRandom → List Obstacle × MathRandom
  | 0, r => ([], r)
  | n + 1, r =>
    let q1 := mathRandomNext sinF r
    let width := 1 + q1.1 * 3
    let q2 := mathRandomNext sinF q1.2
    let height := 1 + q2.1 * 3
    let q3 := mathRandomNext sinF q2.2
    let depth := 1 + q3.1 * 3
    let q4 := mathRandomNext sinF q3.2
    let angle := q4.1 * piV * 2
    let q5 := mathRandomNext sinF q4.2
    let distance := 5 + q5.1 * 15
    let rest := barrierLoop sinF cosF piV n q5.2
    ({ kind := ObstacleKind.barrier, width := width, height := height, depth := depth,
        x := cosF angle * distance, y := height / 2, z := sinF angle * distance } :: rest.1,
      rest.2)

/-- The second loop of createBarriers: n platform blocks of fixed footprint
2 x 0.5 x 2, each drawing an angle and a distance as above and a height in
[1, 4). -/
def platformLoop (sinF cosF : ℚ → ℚ) (piV : ℚ) : ℕ → MathRandom → List Obstacle × MathRandom
  | 0, r => ([], r)
  | n + 1, r =>
    let q1 := mathRandomNext sinF r
    let angle := q1.1 * piV * 2
    let q2 := mathRandomNext sinF q1.2
    let distance := 5 + q2.1 * 15
    let q3 := mathRandomNext sinF q2.2
    let rest := platformLoop sinF cosF piV n q3.2
    ({ kind := ObstacleKind.platform, width := 2, height := 1 / 2, depth := 2,
        x := cosF angle * distance, y := 1 + q3.1 * 3, z := sinF angle * distance } :: rest.1,
      rest.2)

/-- createBarriers: a fresh MathRandom on the given seed generates 15
barriers and then 10 platforms, threading the generator state through every
draw. -/
def createBarriers (sinF cosF : ℚ → ℚ) (piV : ℚ) (seed : ℚ) : List Obstacle :=
  let r0 : MathRandom := { seed := seed }
  let bars := barrierLoop sinF cosF piV 15 r0
  let plats := platformLoop sinF cosF piV 10 bars.2
  bars.1 ++ plats.1

/-- World initialization of app.js as far as randomness is concerned: the
spawn position consumes real entropy (Math.random), while the obstacle
layout is built by createBarriers from the fixed literal seed 12345 through
MathRandom alone and never touches the entropy stream. -/
def worldInit (sinF cosF : ℚ → ℚ) (piV : ℚ) (entropy : ℕ → ℚ) :
    (ℚ × ℚ) × List Obstacle :=
  ((entropy 0 * 10 - 5, entropy 1 * 10 - 5), createBarriers sinF cosF piV 12345)

theorem barrierLoop_length (sinF cosF : ℚ → ℚ) (piV : ℚ) :
    ∀ (n : ℕ) (r : MathRandom), (barrierLoop sinF cosF piV n r).1.length = n := by
  intro n
  induction n with
  | zero => intro r; rfl
  | succ n ih => intro r; simp [barrierLoop, ih]

theorem platformLoop_length (sinF cosF : ℚ → ℚ) (piV : ℚ) :
    ∀ (n : ℕ) (r : MathRandom), (platformLoop sinF cosF piV n r).1.length = n := by
  intro n
  induction n with
  | zero => intro r; rfl
  | succ n ih => intro r; simp [platformLoop, ih]

/-- C9: the obstacle generator is deterministic: two independent runs of
world initialization over arbitrary and different ambient entropy streams
produce the identical ordered obstacle sequence (same count, kinds,
dimensions and positions element by element), because the layout is a pure
function of the fixed seed through the sine-based seeded generator and never
reads real randomness; the layout always consists of the 15 barriers
followed by the 10 platforms. -/
theorem obstacle_generation_deterministic (sinF cosF : ℚ → ℚ) (piV : ℚ)
    (ent1 ent2 : ℕ → ℚ) :
    (worldInit sinF cosF piV ent1).2 = (worldInit sinF cosF piV ent2).2 ∧
      (worldInit sinF cosF piV ent1).2.length = 25 := by
  constructor
  · rfl
  · show (createBarriers sinF cosF piV 12345).length = 25
    simp [createBarriers, List.length_append, barrierLoop_length, platformLoop_length]
